import Mathlib

/-!
Verification of the server-sent-events chat core (asynched/server-sent-events-chat).

The embedding models:
* `Observable<T>` (src/unnamed/part_003): a subscriber array, `emit` iterating it
  with `forEach`, and `subscribe` returning a closure that replaces the array by
  a `filter` removing the callback.
* the zod schemas (src/server/src/schemas.ts) over a small JSON universe;
* the three express routes (src/unnamed/part_004): `/chat/sse`, `/chat/register`,
  `/chat/message`, with event fan-out to per-connection frame logs.

Callbacks passed to `subscribe` in the repository are always freshly created
closures, so reference equality distinguishes every subscription; the model
therefore identifies each subscription by a fresh numeric id allocated at
subscribe time.
-/

namespace SSEChat

/-- The state of `Observable`: the `subscribers` array holds the ids of the
registered callback closures in registration order; `nextId` is the next fresh
id handed out by `subscribe`. -/
structure Observable where
  subscribers : List Nat
  nextId : Nat
deriving Repr, DecidableEq

/-- A freshly constructed `Observable` (`private subscribers = []`). -/
def Observable.empty : Observable := ⟨[], 0⟩

/-- `subscribe(subscriber)`: `this.subscribers.push(subscriber)`; returns the
new state together with the id identifying the returned unsubscribe closure. -/
def Observable.subscribe (st : Observable) : Observable × Nat :=
  (⟨st.subscribers ++ [st.nextId], st.nextId + 1⟩, st.nextId)

/-- The unsubscribe closure returned by `subscribe`:
`this.subscribers = this.subscribers.filter((s) => s !== subscriber)`. -/
def Observable.unsub (st : Observable) (i : Nat) : Observable :=
  ⟨st.subscribers.filter (fun s => s ≠ i), st.nextId⟩

/-- What a callback may do to the bus when invoked: call some unsubscribe
closure re-entrantly, or throw. A callback behaviour is a list of these,
performed in order; a throw propagates immediately. -/
inductive CbAct
  | unsubAct (i : Nat)
  | throwErr
deriving Repr, DecidableEq

/-- Run the bus-state effects of one callback invocation. The returned flag is
`true` when the callback threw. -/
def runActs : List CbAct → Observable → Observable × Bool
  | [], st => (st, false)
  | CbAct.unsubAct i :: rest, st => runActs rest (st.unsub i)
  | CbAct.throwErr :: _, st => (st, true)

/-- `forEach` over the snapshot taken when `emit` started.  JavaScript's
`Array.prototype.forEach` fixes the visited range at call time, and the
unsubscribe closure replaces `this.subscribers` with a *new* filtered array, so
re-entrant unsubscription never changes the array being iterated; a thrown
exception aborts the iteration.  Returns the final bus state, the invocation
log (which callback was invoked, with which event, in order), and whether an
exception propagated out of `emit`. -/
def emitFrom {T : Type} (beh : Nat → T → List CbAct) (e : T) :
    List Nat → Observable → Observable × List (Nat × T) × Bool
  | [], st => (st, [], false)
  | i :: rest, st =>
    let r := runActs (beh i e) st
    if r.2 then (r.1, [(i, e)], true)
    else
      let r2 := emitFrom beh e rest r.1
      (r2.1, (i, e) :: r2.2.1, r2.2.2)

/-- `emit(data)`: `this.subscribers.forEach((s) => s(data))`. -/
def Observable.emit {T : Type} (st : Observable) (beh : Nat → T → List CbAct) (e : T) :
    Observable × List (Nat × T) × Bool :=
  emitFrom beh e st.subscribers st

/-- The pure behaviour: callbacks that neither throw nor touch the bus. -/
def pureBeh {T : Type} : Nat → T → List CbAct := fun _ _ => []

/-- External API calls against the bus: a `subscribe` call, or an invocation
of the unsubscribe closure identified by its handle id. -/
inductive BusOp
  | sub
  | unsubOp (i : Nat)
deriving Repr, DecidableEq

/-- Run a sequence of API calls against the bus. -/
def runOps : List BusOp → Observable → Observable
  | [], st => st
  | BusOp.sub :: rest, st => runOps rest (st.subscribe).1
  | BusOp.unsubOp i :: rest, st => runOps rest (st.unsub i)

/-- Well-formedness of a bus state: the subscriber array is strictly ascending
(registration order, no duplicates) and every id in it was allocated. -/
def Observable.WF (st : Observable) : Prop :=
  st.subscribers.Sorted (· < ·) ∧ ∀ i ∈ st.subscribers, i < st.nextId

theorem wf_empty : Observable.empty.WF := by
  constructor
  · exact List.sorted_nil
  · intro i h
    simp [Observable.empty] at h

theorem wf_subscribe {st : Observable} (h : st.WF) : (st.subscribe).1.WF := by
  obtain ⟨hs, hb⟩ := h
  constructor
  · show List.Sorted (· < ·) (st.subscribers ++ [st.nextId])
    refine List.pairwise_append.mpr ⟨hs, List.sorted_singleton _, ?_⟩
    intro x hx y hy
    simp at hy
    subst hy
    exact hb x hx
  · intro i hi
    simp only [Observable.subscribe, List.mem_append, List.mem_singleton] at hi
    rcases hi with hi | hi
    · exact Nat.lt_succ_of_lt (hb i hi)
    · subst hi; exact Nat.lt_succ_self _

theorem wf_unsub {st : Observable} (h : st.WF) (i : Nat) : (st.unsub i).WF := by
  obtain ⟨hs, hb⟩ := h
  constructor
  · exact hs.filter _
  · intro j hj
    rw [Observable.unsub] at hj
    simp only [List.mem_filter] at hj
    exact hb j hj.1

theorem wf_runOps {st : Observable} (h : st.WF) : ∀ ops, (runOps ops st).WF := by
  intro ops
  induction ops generalizing st with
  | nil => exact h
  | cons op rest ih =>
    cases op with
    | sub => exact ih (wf_subscribe h)
    | unsubOp i => exact ih (wf_unsub h i)

theorem nextId_mono (ops : List BusOp) (st : Observable) :
    st.nextId ≤ (runOps ops st).nextId := by
  induction ops generalizing st with
  | nil => exact Nat.le_refl _
  | cons op rest ih =>
    cases op with
    | sub =>
      rw [runOps]
      have h := ih (st.subscribe).1
      simp only [Observable.subscribe] at h
      exact Nat.le_trans (Nat.le_succ _) h
    | unsubOp i =>
      rw [runOps]
      have h := ih (st.unsub i)
      simp only [Observable.unsub] at h
      exact h

/-- An id that has been allocated and is currently not subscribed can never
reappear: `subscribe` only hands out ids ≥ `nextId`. -/
theorem stays_out (ops : List BusOp) (st : Observable) (i : Nat)
    (hlt : i < st.nextId) (hout : i ∉ st.subscribers) :
    i ∉ (runOps ops st).subscribers := by
  induction ops generalizing st with
  | nil => exact hout
  | cons op rest ih =>
    cases op with
    | sub =>
      rw [runOps]
      apply ih
      · exact Nat.lt_succ_of_lt hlt
      · simp only [Observable.subscribe, List.mem_append, List.mem_singleton]
        rintro (h | h)
        · exact hout h
        · subst h; exact Nat.lt_irrefl _ hlt
    | unsubOp j =>
      rw [runOps]
      apply ih
      · exact hlt
      · simp only [Observable.unsub, List.mem_filter]
        rintro ⟨h, -⟩
        exact hout h

/-- Emitting with pure callbacks returns the state unchanged, no exception,
and an invocation log that is exactly the subscriber array paired with the
event, in array order. -/
theorem emit_pure {T : Type} (st : Observable) (e : T) :
    st.emit pureBeh e = (st, st.subscribers.map (fun i => (i, e)), false) := by
  rw [Observable.emit]
  have h : ∀ (l : List Nat) (s : Observable),
      emitFrom (T := T) pureBeh e l s = (s, l.map (fun i => (i, e)), false) := by
    intro l
    induction l with
    | nil => intro s; rfl
    | cons i rest ih =>
      intro s
      rw [emitFrom]
      simp only [pureBeh, runActs, ih]
      rfl
  exact h st.subscribers st

/-- Any entry of the invocation log of an `emit` names a subscriber present in
the snapshot taken when the `emit` started, and carries the emitted event. -/
theorem log_sub_snapshot {T : Type} (beh : Nat → T → List CbAct) (e : T)
    (l : List Nat) (st : Observable) :
    ∀ p ∈ (emitFrom beh e l st).2.1, p.1 ∈ l ∧ p.2 = e := by
  induction l generalizing st with
  | nil => intro p hp; simp [emitFrom] at hp
  | cons i rest ih =>
    intro p hp
    rw [emitFrom] at hp
    cases hthrew : (runActs (beh i e) st).2 with
    | true =>
      simp only [hthrew, if_true, List.mem_singleton] at hp
      subst hp
      exact ⟨List.mem_cons_self _ _, rfl⟩
    | false =>
      simp only [hthrew, Bool.false_eq_true, if_false, List.mem_cons] at hp
      rcases hp with hp | hp
      · subst hp; exact ⟨List.mem_cons_self _ _, rfl⟩
      · obtain ⟨h1, h2⟩ := ih _ p hp
        exact ⟨List.mem_cons_of_mem _ h1, h2⟩

/-- Entries of a pure-callback publish are never a previously unsubscribed id:
after `unsub i` the id `i` is gone from the array and can never be reissued. -/
theorem unsub_not_delivered_later {T : Type} (st : Observable) (i : Nat)
    (ops : List BusOp) (beh : Nat → T → List CbAct) (e : T) (hlt : i < st.nextId) :
    ∀ p ∈ ((runOps ops (st.unsub i)).emit beh e).2.1, p.1 ≠ i := by
  intro p hp
  have hout : i ∉ (st.unsub i).subscribers := by
    simp only [Observable.unsub, List.mem_filter]
    rintro ⟨-, h⟩
    simp at h
  have hlt2 : i < (st.unsub i).nextId := hlt
  have hnot : i ∉ (runOps ops (st.unsub i)).subscribers := stays_out ops _ i hlt2 hout
  have hmem := log_sub_snapshot beh e _ _ p hp
  intro hpi
  rw [hpi] at hmem
  exact hnot hmem.1

/-- C1: after any sequence of `subscribe`/unsubscribe calls, one `publish(e)`
invokes exactly the still-subscribed callbacks, once each, with `e` unchanged,
in registration order (ids are handed out in increasing order, and the
subscriber array stays strictly ascending); a callback whose handle was
invoked before the publish is never in the invocation log. -/
theorem c1_publish_order_and_exactness :
    (∀ (T : Type) (ops : List BusOp) (e : T),
      (runOps ops Observable.empty).emit pureBeh e =
        ((runOps ops Observable.empty),
         (runOps ops Observable.empty).subscribers.map (fun i => (i, e)), false) ∧
      (runOps ops Observable.empty).subscribers.Sorted (· < ·)) ∧
    (∀ (T : Type) (ops1 : List BusOp) (i : Nat) (ops2 : List BusOp) (e : T),
      i < (runOps ops1 Observable.empty).nextId →
      ∀ p ∈ ((runOps ops2 ((runOps ops1 Observable.empty).unsub i)).emit pureBeh e).2.1,
        p.1 ≠ i) := by
  constructor
  · intro T ops e
    exact ⟨emit_pure _ e, (wf_runOps wf_empty ops).1⟩
  · intro T ops1 i ops2 e hlt
    exact unsub_not_delivered_later _ i ops2 pureBeh e hlt

/-- Witness for C1 at a concrete run: subscribe twice, unsubscribe handle 0,
then publish `5`: the log is exactly `[(1, 5)]` and never mentions `0`. -/
theorem c1_publish_order_and_exactness_witness :
    0 < (runOps [BusOp.sub, BusOp.sub] Observable.empty).nextId ∧
    ∀ p ∈ ((runOps [] ((runOps [BusOp.sub, BusOp.sub] Observable.empty).unsub 0)).emit
        pureBeh (5 : Nat)).2.1, p.1 ≠ 0 :=
  ⟨by decide,
   c1_publish_order_and_exactness.2 Nat [BusOp.sub, BusOp.sub] 0 [] 5 (by decide)⟩

/-- The behaviour used to refute C2: callback 0 throws, every other callback
is pure. -/
def behThrow0 : Nat → Nat → List CbAct :=
  fun i _ => if i = 0 then [CbAct.throwErr] else []

/-- C2 counterexample: with callbacks 0 and 1 registered and callback 0
throwing, `emit` invokes only callback 0, the exception propagates, and the
still-registered callback 1 receives nothing — `forEach` has no per-subscriber
error isolation. -/
theorem c2_counterexample :
    1 ∈ (⟨[0, 1], 2⟩ : Observable).subscribers ∧
    ((⟨[0, 1], 2⟩ : Observable).emit behThrow0 0).2.1 = [(0, 0)] ∧
    ((⟨[0, 1], 2⟩ : Observable).emit behThrow0 0).2.2 = true ∧
    (1, 0) ∉ ((⟨[0, 1], 2⟩ : Observable).emit behThrow0 0).2.1 := by
  decide

/-- C2 as amended: when the subscribers at publish time are `l1 ++ k :: l2`
with every callback in `l1` pure and callback `k` throwing, `emit` invokes the
callbacks of `l1` and then `k`, aborts there (nothing in `l2` is invoked), and
the exception propagates to the publisher. -/
theorem c2_throw_aborts_publish (T : Type) (p : Nat → Bool) (l1 l2 : List Nat)
    (k : Nat) (st : Observable) (e : T)
    (hsnap : st.subscribers = l1 ++ k :: l2)
    (h1 : ∀ j ∈ l1, p j = false) (hk : p k = true) :
    st.emit (fun i _ => if p i then [CbAct.throwErr] else []) e =
      (st, l1.map (fun i => (i, e)) ++ [(k, e)], true) := by
  rw [Observable.emit, hsnap]
  clear hsnap
  induction l1 with
  | nil =>
    rw [List.nil_append, emitFrom]
    simp [runActs, hk]
  | cons j rest ih =>
    have hj : p j = false := h1 j (List.mem_cons_self _ _)
    rw [List.cons_append, emitFrom]
    simp only [hj, if_false, runActs]
    rw [ih (fun x hx => h1 x (List.mem_cons_of_mem _ hx))]
    rfl

/-- Witness for C2-as-amended: subscribers `[2, 0, 1]`, callback 0 throws:
the log is `[(2, 9), (0, 9)]` and the exception propagates. -/
theorem c2_throw_aborts_publish_witness :
    (⟨[2, 0, 1], 3⟩ : Observable).subscribers = [2] ++ 0 :: [1] ∧
    (∀ j ∈ [2], (decide (j = 0)) = false) ∧
    (decide ((0 : Nat) = 0)) = true ∧
    (⟨[2, 0, 1], 3⟩ : Observable).emit
        (fun i _ => if decide (i = 0) then [CbAct.throwErr] else []) (9 : Nat) =
      (⟨[2, 0, 1], 3⟩, [2].map (fun i => (i, 9)) ++ [(0, 9)], true) :=
  ⟨by decide, by decide, by decide,
   c2_throw_aborts_publish Nat (fun i => decide (i = 0)) [2] [1] 0 _ 9
     (by decide) (by decide) (by decide)⟩

/-- The behaviour used to refute C3: callback 0 re-entrantly invokes the
unsubscribe handle of callback 1. -/
def behUnsub1 : Nat → Nat → List CbAct :=
  fun i _ => if i = 0 then [CbAct.unsubAct 1] else []

/-- C3 counterexample: callbacks 0 and 1 are registered; during the publish,
callback 0 invokes callback 1's unsubscribe handle (its teardown begins and
completes — the final subscriber array is `[0]`), yet callback 1 is still
invoked with the in-progress event: the unsubscribe closure replaces the
array, while `forEach` keeps iterating the old snapshot. -/
theorem c3_counterexample :
    ((⟨[0, 1], 2⟩ : Observable).emit behUnsub1 0).1.subscribers = [0] ∧
    (1, 0) ∈ ((⟨[0, 1], 2⟩ : Observable).emit behUnsub1 0).2.1 := by
  decide

/-- C3 as amended: a publish delivers only to the snapshot of subscribers
taken when it starts, so (a) a subscriber no longer in the array when a
publish starts is never invoked by it, whatever the callbacks do re-entrantly;
(b) but a subscriber present in that snapshot may still be invoked even if its
unsubscribe handle runs re-entrantly during the publish. -/
theorem c3_unsub_stops_future_publishes_only (T : Type) (st : Observable)
    (i : Nat) (beh : Nat → T → List CbAct) (e : T) (h : i ∉ st.subscribers) :
    ∀ p ∈ (st.emit beh e).2.1, p.1 ≠ i ∧ p.1 ∈ st.subscribers ∧ p.2 = e := by
  intro p hp
  have hmem := log_sub_snapshot beh e st.subscribers st p hp
  refine ⟨?_, hmem.1, hmem.2⟩
  intro hpi
  rw [hpi] at hmem
  exact h hmem.1

/-- Witness for C3-as-amended: id 1 is not in the array `[0]`, so a publish
from that state never invokes it, even under re-entrant behaviours. -/
theorem c3_unsub_stops_future_publishes_only_witness :
    (1 : Nat) ∉ (⟨[0], 2⟩ : Observable).subscribers ∧
    ∀ p ∈ ((⟨[0], 2⟩ : Observable).emit behUnsub1 0).2.1,
      p.1 ≠ 1 ∧ p.1 ∈ (⟨[0], 2⟩ : Observable).subscribers ∧ p.2 = 0 :=
  ⟨by decide,
   c3_unsub_stops_future_publishes_only Nat ⟨[0], 2⟩ 1 behUnsub1 0 (by decide)⟩

/-- C4: invoking an unsubscribe handle twice leaves the bus in the same state
as invoking it once (the `filter` is idempotent), hence every later publish
behaves identically; and once the handle has been invoked, that callback is
never delivered another event, across any further API calls. -/
theorem c4_unsub_idempotent :
    (∀ (st : Observable) (i : Nat), (st.unsub i).unsub i = st.unsub i) ∧
    (∀ (T : Type) (st : Observable) (i : Nat) (beh : Nat → T → List CbAct) (e : T),
      ((st.unsub i).unsub i).emit beh e = (st.unsub i).emit beh e) ∧
    (∀ (T : Type) (st : Observable) (i : Nat) (ops : List BusOp)
       (beh : Nat → T → List CbAct) (e : T),
      i < st.nextId →
      ∀ p ∈ ((runOps ops (st.unsub i)).emit beh e).2.1, p.1 ≠ i) := by
  have hid : ∀ (st : Observable) (i : Nat), (st.unsub i).unsub i = st.unsub i := by
    intro st i
    simp [Observable.unsub, List.filter_filter]
  refine ⟨hid, ?_, ?_⟩
  · intro T st i beh e
    rw [hid]
  · intro T st i ops beh e hlt
    exact unsub_not_delivered_later st i ops beh e hlt

/-- Witness for C4 at a concrete state: handle 0 of `⟨[0, 1], 2⟩` was issued
(`0 < 2`), and after unsubscribing it no later publish invokes callback 0. -/
theorem c4_unsub_idempotent_witness :
    0 < (⟨[0, 1], 2⟩ : Observable).nextId ∧
    ∀ p ∈ ((runOps [BusOp.sub] ((⟨[0, 1], 2⟩ : Observable).unsub 0)).emit
        pureBeh (3 : Nat)).2.1, p.1 ≠ 0 :=
  ⟨by decide,
   c4_unsub_idempotent.2.2 Nat ⟨[0, 1], 2⟩ 0 [BusOp.sub] pureBeh 3 (by decide)⟩

/-! ## JSON values, the zod schemas, and the chat events -/

/-- The JSON universe for request bodies, query objects and the wire format. -/
inductive Json
  | nul
  | jbool (b : Bool)
  | num (n : Int)
  | str (s : String)
  | arr (xs : List Json)
  | obj (fields : List (String × Json))
deriving Repr

/-- First-match field lookup in a JSON object. -/
def lookupField : List (String × Json) → String → Option Json
  | [], _ => none
  | f :: rest, key => if f.1 = key then some f.2 else lookupField rest key

/-- Member access: `some` value for a present key of an object, `none` for a
missing key or a non-object. -/
def Json.getField : Json → String → Option Json
  | Json.obj fields, key => lookupField fields key
  | _, _ => none

/-- `z.string().safeParse`: succeeds exactly on JSON strings (any string —
there is no `.min(1)` refinement anywhere in `schemas.ts`). -/
def parseString : Json → Option String
  | Json.str s => some s
  | _ => none

/-- The `User` shape from `@types/index.d.ts`. -/
structure User where
  id : String
  name : String
deriving Repr, DecidableEq

/-- `signInSchema.safeParse`: `z.object({ name: z.string() })` — succeeds iff
the body has a `name` member that is a string. -/
def signInSafeParse (j : Json) : Option String :=
  match j.getField "name" with
  | some v => parseString v
  | none => none

/-- `userSchema.safeParse`: `z.object({ id: z.string(), name: z.string() })`. -/
def userSafeParse (j : Json) : Option User :=
  match j.getField "id", j.getField "name" with
  | some i, some n =>
    match parseString i, parseString n with
    | some i, some n => some ⟨i, n⟩
    | _, _ => none
  | _, _ => none

/-- The parsed result of `messageSchema`:
`z.object({ message: z.string(), user: userSchema })`. -/
structure MessageDto where
  message : String
  user : User
deriving Repr, DecidableEq

/-- `messageSchema.safeParse`. -/
def messageSafeParse (j : Json) : Option MessageDto :=
  match j.getField "message", j.getField "user" with
  | some m, some u =>
    match parseString m, userSafeParse u with
    | some m, some u => some ⟨m, u⟩
    | _, _ => none
  | _, _ => none

/-- `ChatEvent` from `@types/index.d.ts`: the tagged union published on the
bus, with discriminants `UserSignedIn`, `UserMessage`, `UserSignedOut`. -/
inductive ChatEvent
  | userSignedIn (user : User)
  | userMessage (id : String) (user : User) (message : String)
  | userSignedOut (user : User)
deriving Repr, DecidableEq

/-- `JSON.stringify` string escaping for the characters that can occur here. -/
def escapeChar (c : Char) : String :=
  if c = '"' then "\\\""
  else if c = '\\' then "\\\\"
  else if c = '\n' then "\\n"
  else if c = '\r' then "\\r"
  else if c = '\t' then "\\t"
  else String.singleton c

/-- Escape the characters of a JSON string body. -/
def escapeString (s : String) : String :=
  String.join (s.toList.map escapeChar)

-- `JSON.stringify`, with object members in insertion order.
mutual
def stringify : Json → String
  | Json.nul => "null"
  | Json.jbool true => "true"
  | Json.jbool false => "false"
  | Json.num n => toString n
  | Json.str s => "\"" ++ escapeString s ++ "\""
  | Json.arr xs => "[" ++ stringifyElems xs ++ "]"
  | Json.obj fs => "\x7b" ++ stringifyFields fs ++ "\x7d"
def stringifyElems : List Json → String
  | [] => ""
  | [x] => stringify x
  | x :: y :: rest => stringify x ++ "," ++ stringifyElems (y :: rest)
def stringifyFields : List (String × Json) → String
  | [] => ""
  | [f] => "\"" ++ escapeString f.1 ++ "\":" ++ stringify f.2
  | f :: g :: rest =>
    "\"" ++ escapeString f.1 ++ "\":" ++ stringify f.2 ++ "," ++
      stringifyFields (g :: rest)
end

/-- The JSON object produced for a user, member order `id`, `name` (the order
of the object literal in the register route and of `userSchema`'s shape). -/
def jsonOfUser (u : User) : Json :=
  Json.obj [("id", Json.str u.id), ("name", Json.str u.name)]

/-- The JSON object passed to `JSON.stringify` for each emitted event, with
the member order of the object literals in the route handlers (for
`UserMessage`, the spread of the parsed body — `message`, `user` — followed by
the freshly minted `id`). -/
def jsonOfEvent : ChatEvent → Json
  | ChatEvent.userSignedIn u =>
    Json.obj [("discriminant", Json.str "UserSignedIn"),
              ("data", Json.obj [("user", jsonOfUser u)])]
  | ChatEvent.userMessage i u msg =>
    Json.obj [("discriminant", Json.str "UserMessage"),
              ("data", Json.obj [("message", Json.str msg),
                                 ("user", jsonOfUser u),
                                 ("id", Json.str i)])]
  | ChatEvent.userSignedOut u =>
    Json.obj [("discriminant", Json.str "UserSignedOut"),
              ("data", Json.obj [("user", jsonOfUser u)])]

/-- The bytes the stream callback writes for one event:
`res.write("event: message\n"); res.write("data: " + JSON.stringify(event) + "\n\n")`. -/
def sseFrame (e : ChatEvent) : String :=
  "event: message\n" ++ ("data: " ++ stringify (jsonOfEvent e) ++ "\n\n")

/-- C6 counterexample: the wire discriminant of a join event is the string
`"UserSignedIn"`, which is none of `"IdentityJoined"`, `"MessagePosted"`,
`"IdentityLeft"`; the full frame for a concrete event is shown. -/
theorem c6_counterexample :
    (jsonOfEvent (ChatEvent.userSignedIn ⟨"u1", "Alice"⟩)).getField "discriminant"
        = some (Json.str "UserSignedIn") ∧
    ("UserSignedIn" : String) ∉ ["IdentityJoined", "MessagePosted", "IdentityLeft"] ∧
    sseFrame (ChatEvent.userSignedIn ⟨"u1", "Alice"⟩) =
      "event: message\ndata: \x7b\"discriminant\":\"UserSignedIn\",\"data\":\x7b\"user\":\x7b\"id\":\"u1\",\"name\":\"Alice\"\x7d\x7d\x7d\n\n" :=
  ⟨rfl, by decide, rfl⟩

/-- C6 as amended: every event goes onto the wire as the two-line frame
`event: message\n` + `data: <json>\n\n`, where the JSON is an object whose
first member is the discriminant and whose second member is the data — but
the discriminant strings are `UserSignedIn` / `UserMessage` / `UserSignedOut`,
not the spec's renamed `IdentityJoined` / `MessagePosted` / `IdentityLeft`. -/
theorem c6_frame_shape (e : ChatEvent) :
    sseFrame e = "event: message\n" ++ "data: " ++ stringify (jsonOfEvent e) ++ "\n\n" ∧
    ∃ d payload, jsonOfEvent e = Json.obj [("discriminant", Json.str d), ("data", payload)] ∧
      (d = "UserSignedIn" ∨ d = "UserMessage" ∨ d = "UserSignedOut") := by
  constructor
  · rw [sseFrame, ← String.append_assoc, ← String.append_assoc]
  · cases e with
    | userSignedIn u => exact ⟨"UserSignedIn", _, rfl, Or.inl rfl⟩
    | userMessage i u msg => exact ⟨"UserMessage", _, rfl, Or.inr (Or.inl rfl)⟩
    | userSignedOut u => exact ⟨"UserSignedOut", _, rfl, Or.inr (Or.inr rfl)⟩

/-! ## The route handlers -/

/-- Outcome of one `POST /chat/register` request: HTTP status, the JSON body
(`res.json(user)` on success, the validation diagnostics on failure — modelled
as `none`), and the events published to the bus while handling it. -/
structure RegisterOutcome where
  status : Nat
  user : Option User
  published : List ChatEvent
deriving Repr, DecidableEq

/-- `app.post('/chat/register')`: parse the body with `signInSchema`; on
failure respond 400 and publish nothing; on success mint a fresh uuid `fresh`,
publish `UserSignedIn` and respond with the user. -/
def registerRoute (fresh : String) (body : Json) : RegisterOutcome :=
  match signInSafeParse body with
  | none => ⟨400, none, []⟩
  | some name => ⟨200, some ⟨fresh, name⟩, [ChatEvent.userSignedIn ⟨fresh, name⟩]⟩

/-- Outcome of one `POST /chat/message` request: HTTP status (204 carries no
body — `res.status(204).end()`) and the events published while handling it. -/
structure MessageOutcome where
  status : Nat
  published : List ChatEvent
deriving Repr, DecidableEq

/-- `app.post('/chat/message')`: parse the body with `messageSchema`; on
failure respond 400 and publish nothing; on success publish `UserMessage` with
a freshly minted id and respond 204 with no payload. -/
def messageRoute (fresh : String) (body : Json) : MessageOutcome :=
  match messageSafeParse body with
  | none => ⟨400, []⟩
  | some m => ⟨204, [ChatEvent.userMessage fresh m.user m.message]⟩

/-- C5 counterexample: `signInSchema` is a bare `z.string()` with no
non-emptiness refinement, so registering with `{name: ""}` is *accepted*: the
route answers 200 with the minted user and publishes one `UserSignedIn` event,
not the claimed client error with zero publishes. -/
theorem c5_counterexample :
    registerRoute "fresh-id" (Json.obj [("name", Json.str "")]) =
      ⟨200, some ⟨"fresh-id", ""⟩, [ChatEvent.userSignedIn ⟨"fresh-id", ""⟩]⟩ := rfl

/-- C5 as amended: a body with no `name` member (or a non-object body) is
rejected by register with a 400 and zero publishes; a body whose `message`
member is not a string is rejected by post-message with a 400 and zero
publishes; but an empty-string `name` passes the schema and yields a 200 and
one published event. -/
theorem c5_validation_failures :
    (∀ (fresh : String) (j : Json), j.getField "name" = none →
      registerRoute fresh j = ⟨400, none, []⟩) ∧
    (∀ (fresh : String) (j : Json) (v : Json), j.getField "message" = some v →
      parseString v = none → messageRoute fresh j = ⟨400, []⟩) ∧
    (∀ fresh : String,
      registerRoute fresh (Json.obj [("name", Json.str "")]) =
        ⟨200, some ⟨fresh, ""⟩, [ChatEvent.userSignedIn ⟨fresh, ""⟩]⟩) := by
  refine ⟨?_, ?_, ?_⟩
  · intro fresh j h
    rw [registerRoute, signInSafeParse, h]
  · intro fresh j v h hv
    cases hu : j.getField "user" with
    | none => simp [messageRoute, messageSafeParse, h, hu]
    | some u => simp [messageRoute, messageSafeParse, h, hu, hv]
  · intro fresh
    rfl

/-- Witness for C5-as-amended: concrete rejected bodies (`{}` for register, a
numeric `message` for post-message) and the accepted empty name. -/
theorem c5_validation_failures_witness :
    ((Json.obj []).getField "name" = none ∧
      registerRoute "u1" (Json.obj []) = ⟨400, none, []⟩) ∧
    ((Json.obj [("message", Json.num 3),
        ("user", Json.obj [("id", Json.str "u"), ("name", Json.str "n")])]).getField
          "message" = some (Json.num 3) ∧
      parseString (Json.num 3) = none ∧
      messageRoute "m1" (Json.obj [("message", Json.num 3),
        ("user", Json.obj [("id", Json.str "u"), ("name", Json.str "n")])]) =
          ⟨400, []⟩) ∧
    registerRoute "u2" (Json.obj [("name", Json.str "")]) =
      ⟨200, some ⟨"u2", ""⟩, [ChatEvent.userSignedIn ⟨"u2", ""⟩]⟩ :=
  ⟨⟨rfl, c5_validation_failures.1 "u1" (Json.obj []) rfl⟩,
   ⟨rfl, rfl,
    c5_validation_failures.2.1 "m1" _ (Json.num 3) rfl rfl⟩,
   c5_validation_failures.2.2 "u2"⟩

/-! ## The server: stream connections and fan-out -/

/-- One stream connection accepted by `GET /chat/sse`: the id of the callback
it subscribed, the identity validated from the query at open time, whether the
transport has delivered its close event, and the frames written to it. -/
structure Conn where
  subId : Nat
  user : User
  closed : Bool
  received : List ChatEvent
deriving Repr, DecidableEq

/-- The running server: the shared `events` bus, the stream connections, and
the full history of published events. -/
structure ServerState where
  bus : Observable
  conns : List Conn
  published : List ChatEvent
deriving Repr, DecidableEq

/-- The server right after startup: `new Observable<ChatEvent>()`, nothing
connected, nothing published. -/
def ServerState.initial : ServerState := ⟨Observable.empty, [], []⟩

/-- The effect of one `events.emit(e)` on one connection: its callback writes
one frame iff that callback is in the subscriber array being iterated. -/
def deliver (subs : List Nat) (e : ChatEvent) (c : Conn) : Conn :=
  if c.subId ∈ subs then ⟨c.subId, c.user, c.closed, c.received ++ [e]⟩ else c

/-- `events.emit(e)` at the server level: the `forEach` invokes every
subscribed stream callback, each of which only writes its frame (never throws,
never touches the bus), so every subscribed connection appends one frame and
the per-connection effects are independent; the event is recorded. -/
def ServerState.emit (st : ServerState) (e : ChatEvent) : ServerState :=
  ⟨st.bus, st.conns.map (deliver st.bus.subscribers e), st.published ++ [e]⟩

/-- Outcome of one `GET /chat/sse` request: the status and the new server
state. -/
structure SseOutcome where
  status : Nat
  state : ServerState
deriving Repr, DecidableEq

/-- `app.get('/chat/sse')`: validate `req.query` against `userSchema`; on
failure answer 400 and change nothing; on success subscribe a fresh write
callback and keep the connection open.  The open path publishes nothing. -/
def sseRoute (st : ServerState) (query : Json) : SseOutcome :=
  match userSafeParse query with
  | none => ⟨400, st⟩
  | some user =>
    ⟨200, ⟨(st.bus.subscribe).1,
           st.conns ++ [⟨(st.bus.subscribe).2, user, false, []⟩],
           st.published⟩⟩

/-- Bookkeeping for a close signal: the connection whose callback id is `cid`
is recorded as closed. -/
def markClosed (cid : Nat) (c2 : Conn) : Conn :=
  if c2.subId = cid then ⟨c2.subId, c2.user, true, c2.received⟩ else c2

/-- The `req.on('close')` handler of the connection whose callback id is
`cid`: call the stored unsubscribe closure, then
`events.emit({discriminant: 'UserSignedOut', data: {user}})` with the identity
validated at open time.  A request's transport delivers its close event at
most once (a closed socket cannot close again); the `closed` flag models that,
so the handler body runs only on the first close signal. -/
def ServerState.closeConn (st : ServerState) (cid : Nat) : ServerState :=
  match st.conns.find? (fun c => c.subId == cid) with
  | none => st
  | some c =>
    if c.closed then st
    else
      ServerState.emit
        ⟨st.bus.unsub cid, st.conns.map (markClosed cid), st.published⟩
        (ChatEvent.userSignedOut c.user)

/-- `POST /chat/register` against the running server. -/
def ServerState.register (st : ServerState) (fresh : String) (body : Json) :
    ServerState × RegisterOutcome :=
  ((registerRoute fresh body).published.foldl ServerState.emit st,
   registerRoute fresh body)

/-- `POST /chat/message` against the running server. -/
def ServerState.postMessage (st : ServerState) (fresh : String) (body : Json) :
    ServerState × MessageOutcome :=
  ((messageRoute fresh body).published.foldl ServerState.emit st,
   messageRoute fresh body)

/-- `find?` over a map by a function that preserves the searched key. -/
theorem find_map_pres (g : Conn → Conn) (hg : ∀ x, (g x).subId = x.subId)
    (l : List Conn) (cid : Nat) (c : Conn)
    (h : l.find? (fun x => x.subId == cid) = some c) :
    (l.map g).find? (fun x => x.subId == cid) = some (g c) := by
  induction l with
  | nil => simp at h
  | cons a rest ih =>
    rw [List.find?_cons] at h
    rw [List.map_cons, List.find?_cons]
    have hga : ((g a).subId == cid) = (a.subId == cid) := by rw [hg]
    cases hpa : (a.subId == cid) with
    | true =>
      rw [hpa] at h
      rw [hga, hpa]
      simp only at h ⊢
      cases h
      rfl
    | false =>
      rw [hpa] at h
      rw [hga, hpa]
      simp only at h ⊢
      exact ih h

theorem markClosed_subId (cid : Nat) (x : Conn) : (markClosed cid x).subId = x.subId := by
  rw [markClosed]; split <;> rfl

theorem deliver_subId (subs : List Nat) (e : ChatEvent) (x : Conn) :
    (deliver subs e x).subId = x.subId := by
  rw [deliver]; split <;> rfl

theorem deliver_closed (subs : List Nat) (e : ChatEvent) (x : Conn) :
    (deliver subs e x).closed = x.closed := by
  rw [deliver]; split <;> rfl

/-- C7: on the first close signal of the connection with callback id `cid`
(the `find?` hypothesis names its record `c`, still open), the handler
unsubscribes the stored handle and then publishes exactly one `UserSignedOut`
carrying the identity validated at open time; the callback id has left the
subscriber array before the emit, every *other* still-subscribed connection
receives the frame, the closing connection itself does not, and a duplicate
close signal changes nothing. -/
theorem c7_close_publishes_leave (st : ServerState) (cid : Nat) (c : Conn)
    (hfind : st.conns.find? (fun x => x.subId == cid) = some c)
    (hopen : c.closed = false) :
    (st.closeConn cid).published = st.published ++ [ChatEvent.userSignedOut c.user] ∧
    cid ∉ (st.closeConn cid).bus.subscribers ∧
    (∀ c2 ∈ st.conns, c2.subId ≠ cid → c2.subId ∈ st.bus.subscribers →
      (⟨c2.subId, c2.user, c2.closed, c2.received ++ [ChatEvent.userSignedOut c.user]⟩ : Conn)
        ∈ (st.closeConn cid).conns) ∧
    (∀ c2 ∈ st.conns, c2.subId = cid →
      (⟨c2.subId, c2.user, true, c2.received⟩ : Conn) ∈ (st.closeConn cid).conns) ∧
    (st.closeConn cid).closeConn cid = st.closeConn cid := by
  have hc : st.closeConn cid =
      ServerState.emit
        ⟨st.bus.unsub cid, st.conns.map (markClosed cid), st.published⟩
        (ChatEvent.userSignedOut c.user) := by
    rw [ServerState.closeConn, hfind]
    simp [hopen]
  have hsubId : c.subId = cid := by
    have := List.find?_some hfind
    simpa using this
  refine ⟨?_, ?_, ?_, ?_, ?_⟩
  · rw [hc]; rfl
  · rw [hc]
    show cid ∉ (st.bus.unsub cid).subscribers
    simp [Observable.unsub]
  · intro c2 hc2 hne hmem
    rw [hc]
    show _ ∈ ((st.conns.map (markClosed cid)).map
      (deliver (st.bus.unsub cid).subscribers (ChatEvent.userSignedOut c.user)))
    rw [List.map_map]
    refine List.mem_map.mpr ⟨c2, hc2, ?_⟩
    show deliver (st.bus.unsub cid).subscribers _ (markClosed cid c2) = _
    rw [markClosed, if_neg hne, deliver, if_pos]
    simp only [Observable.unsub, List.mem_filter]
    exact ⟨hmem, by simpa using hne⟩
  · intro c2 hc2 heq
    rw [hc]
    show _ ∈ ((st.conns.map (markClosed cid)).map
      (deliver (st.bus.unsub cid).subscribers (ChatEvent.userSignedOut c.user)))
    rw [List.map_map]
    refine List.mem_map.mpr ⟨c2, hc2, ?_⟩
    show deliver (st.bus.unsub cid).subscribers _ (markClosed cid c2) = _
    rw [markClosed, if_pos heq, deliver, if_neg]
    simp only [Observable.unsub, List.mem_filter]
    rintro ⟨-, habs⟩
    simp [heq] at habs
  · have hg : ∀ x : Conn,
        ((deliver (st.bus.unsub cid).subscribers (ChatEvent.userSignedOut c.user)
          (markClosed cid x)).subId) = x.subId := by
      intro x
      rw [deliver_subId, markClosed_subId]
    have hf2 : ((st.closeConn cid).conns).find? (fun x => x.subId == cid) =
        some (deliver (st.bus.unsub cid).subscribers (ChatEvent.userSignedOut c.user)
          (markClosed cid c)) := by
      rw [hc]
      show ((st.conns.map (markClosed cid)).map
        (deliver (st.bus.unsub cid).subscribers (ChatEvent.userSignedOut c.user))).find?
          (fun x => x.subId == cid) = _
      rw [List.map_map]
      exact find_map_pres _ hg st.conns cid c hfind
    have hclosed : (deliver (st.bus.unsub cid).subscribers
        (ChatEvent.userSignedOut c.user) (markClosed cid c)).closed = true := by
      rw [deliver_closed, markClosed, if_pos hsubId]
    rw [ServerState.closeConn, hf2]
    simp [hclosed]

/-- Witness for C7: a server with two open subscribed connections; closing the
one with callback id 0 publishes one `UserSignedOut` for its identity, the
other connection receives the frame, the closed one does not, and a second
close signal is a no-op. -/
theorem c7_close_publishes_leave_witness :
    ((⟨⟨[0, 1], 2⟩,
       [⟨0, ⟨"a", "A"⟩, false, []⟩, ⟨1, ⟨"b", "B"⟩, false, []⟩],
       []⟩ : ServerState).conns.find? (fun x => x.subId == 0) =
        some ⟨0, ⟨"a", "A"⟩, false, []⟩) ∧
    ((⟨⟨[0, 1], 2⟩,
       [⟨0, ⟨"a", "A"⟩, false, []⟩, ⟨1, ⟨"b", "B"⟩, false, []⟩],
       []⟩ : ServerState).closeConn 0).published =
      [] ++ [ChatEvent.userSignedOut ⟨"a", "A"⟩] :=
  ⟨by decide,
   (c7_close_publishes_leave
     ⟨⟨[0, 1], 2⟩, [⟨0, ⟨"a", "A"⟩, false, []⟩, ⟨1, ⟨"b", "B"⟩, false, []⟩], []⟩
     0 ⟨0, ⟨"a", "A"⟩, false, []⟩ (by decide) rfl).1⟩

/-- C8: registering with any valid body `{name}` using the freshly minted
uuid `fresh` (uuids are non-empty and collide with no live identity, taken
here as hypotheses about the mint) answers 200 with exactly `{id: fresh,
name}`, publishes exactly one `UserSignedIn` carrying that identity, and every
currently subscribed stream connection receives it as one frame. -/
theorem c8_register_publishes_join (st : ServerState) (fresh name : String)
    (hne : fresh ≠ "") (hfree : ∀ c ∈ st.conns, c.user.id ≠ fresh) :
    (st.register fresh (Json.obj [("name", Json.str name)])).2 =
      ⟨200, some ⟨fresh, name⟩, [ChatEvent.userSignedIn ⟨fresh, name⟩]⟩ ∧
    (⟨fresh, name⟩ : User).id ≠ "" ∧
    (∀ c ∈ st.conns, c.user.id ≠ (⟨fresh, name⟩ : User).id) ∧
    (st.register fresh (Json.obj [("name", Json.str name)])).1.published =
      st.published ++ [ChatEvent.userSignedIn ⟨fresh, name⟩] ∧
    (st.register fresh (Json.obj [("name", Json.str name)])).1.conns =
      st.conns.map (deliver st.bus.subscribers (ChatEvent.userSignedIn ⟨fresh, name⟩)) ∧
    (∀ c ∈ st.conns, c.subId ∈ st.bus.subscribers →
      (⟨c.subId, c.user, c.closed,
        c.received ++ [ChatEvent.userSignedIn ⟨fresh, name⟩]⟩ : Conn)
        ∈ (st.register fresh (Json.obj [("name", Json.str name)])).1.conns) := by
  refine ⟨rfl, hne, hfree, rfl, rfl, ?_⟩
  intro c hcmem hsub
  show _ ∈ st.conns.map (deliver st.bus.subscribers (ChatEvent.userSignedIn ⟨fresh, name⟩))
  refine List.mem_map.mpr ⟨c, hcmem, ?_⟩
  rw [deliver, if_pos hsub]

/-- Witness for C8: a concrete register call against a server with one
subscribed connection. -/
theorem c8_register_publishes_join_witness :
    ("u-77" : String) ≠ "" ∧
    (∀ c ∈ ([⟨0, ⟨"x", "X"⟩, false, []⟩] : List Conn), c.user.id ≠ "u-77") ∧
    ((⟨⟨[0], 1⟩, [⟨0, ⟨"x", "X"⟩, false, []⟩], []⟩ : ServerState).register "u-77"
      (Json.obj [("name", Json.str "Alice")])).2 =
        ⟨200, some ⟨"u-77", "Alice"⟩, [ChatEvent.userSignedIn ⟨"u-77", "Alice"⟩]⟩ :=
  ⟨by decide, by decide,
   (c8_register_publishes_join ⟨⟨[0], 1⟩, [⟨0, ⟨"x", "X"⟩, false, []⟩], []⟩
     "u-77" "Alice" (by decide) (by decide)).1⟩

/-- C9: posting a valid body `{user, message}` answers 204 (the outcome
carries no payload), publishes exactly one `UserMessage` whose id is the
freshly minted uuid, whose identity and body are the submitted ones, and every
subscribed connection — in particular any connection of the sender's own
identity — receives the frame via the broadcast path. -/
theorem c9_post_message_broadcast (st : ServerState) (fresh msg : String) (u : User) :
    (st.postMessage fresh (Json.obj [("user", jsonOfUser u), ("message", Json.str msg)])).2 =
      ⟨204, [ChatEvent.userMessage fresh u msg]⟩ ∧
    (st.postMessage fresh (Json.obj [("user", jsonOfUser u),
        ("message", Json.str msg)])).1.published =
      st.published ++ [ChatEvent.userMessage fresh u msg] ∧
    (st.postMessage fresh (Json.obj [("user", jsonOfUser u),
        ("message", Json.str msg)])).1.conns =
      st.conns.map (deliver st.bus.subscribers (ChatEvent.userMessage fresh u msg)) ∧
    (∀ c ∈ st.conns, c.subId ∈ st.bus.subscribers → c.user = u →
      (⟨c.subId, c.user, c.closed, c.received ++ [ChatEvent.userMessage fresh u msg]⟩ : Conn)
        ∈ (st.postMessage fresh (Json.obj [("user", jsonOfUser u),
            ("message", Json.str msg)])).1.conns) := by
  refine ⟨rfl, rfl, rfl, ?_⟩
  intro c hcmem hsub _
  show _ ∈ st.conns.map (deliver st.bus.subscribers (ChatEvent.userMessage fresh u msg))
  refine List.mem_map.mpr ⟨c, hcmem, ?_⟩
  rw [deliver, if_pos hsub]

/-- Witness for C9: the sender `u1` is subscribed and receives its own
message frame through the broadcast. -/
theorem c9_post_message_broadcast_witness :
    ((⟨⟨[0], 1⟩, [⟨0, ⟨"u1", "Alice"⟩, false, []⟩], []⟩ : ServerState).postMessage "m-9"
      (Json.obj [("user", jsonOfUser ⟨"u1", "Alice"⟩), ("message", Json.str "hi")])).2 =
        ⟨204, [ChatEvent.userMessage "m-9" ⟨"u1", "Alice"⟩ "hi"]⟩ ∧
    (⟨0, ⟨"u1", "Alice"⟩, false, [ChatEvent.userMessage "m-9" ⟨"u1", "Alice"⟩ "hi"]⟩ : Conn)
      ∈ ((⟨⟨[0], 1⟩, [⟨0, ⟨"u1", "Alice"⟩, false, []⟩], []⟩ : ServerState).postMessage "m-9"
        (Json.obj [("user", jsonOfUser ⟨"u1", "Alice"⟩),
                   ("message", Json.str "hi")])).1.conns :=
  ⟨(c9_post_message_broadcast ⟨⟨[0], 1⟩, [⟨0, ⟨"u1", "Alice"⟩, false, []⟩], []⟩
      "m-9" "hi" ⟨"u1", "Alice"⟩).1,
   (c9_post_message_broadcast ⟨⟨[0], 1⟩, [⟨0, ⟨"u1", "Alice"⟩, false, []⟩], []⟩
      "m-9" "hi" ⟨"u1", "Alice"⟩).2.2.2
     ⟨0, ⟨"u1", "Alice"⟩, false, []⟩ (by decide) (by decide) rfl⟩

/-- C10: opening a stream connection publishes nothing, on the success path
and on the rejection path alike; consequently an identity that merely passes
`userSchema` on the query can open a stream without ever registering, and
closing it broadcasts a `UserSignedOut` for an identity for which no
`UserSignedIn` was ever published. -/
theorem c10_open_publishes_nothing :
    (∀ (st : ServerState) (query : Json),
      (sseRoute st query).state.published = st.published) ∧
    ((sseRoute ServerState.initial
        (Json.obj [("id", Json.str "ghost"), ("name", Json.str "Bob")])).state.closeConn 0).published
      = [ChatEvent.userSignedOut ⟨"ghost", "Bob"⟩] ∧
    ChatEvent.userSignedIn ⟨"ghost", "Bob"⟩ ∉
      ((sseRoute ServerState.initial
        (Json.obj [("id", Json.str "ghost"), ("name", Json.str "Bob")])).state.closeConn 0).published := by
  refine ⟨?_, by decide, by decide⟩
  intro st query
  cases h : userSafeParse query with
  | none => simp [sseRoute, h]
  | some u => simp [sseRoute, h]

end SSEChat
